import Mathlib

/-!
Shallow embedding of `src/lime/our_lime.py` (a LIME-style image explainer)
and verification of its specification claims.

Modelling conventions:
* Images are flattened single-channel pixel lists over `ℚ` (value range and
  2-D layout are irrelevant to the verified claims, which are per-pixel).
* The super-pixel grid is a `List ℕ` parallel to the pixel list, cell `i`
  holding the super-pixel identifier of pixel `i`, exactly as the numpy
  `superpixels` array.
* `np.random.randint(2, size=(num_samples, num_superpixels))` is modelled by
  passing the drawn binary masks explicitly (`draws : List (List Bool)`);
  everything downstream of the draw is deterministic and embedded faithfully.
* Python exceptions are modelled by `Except PyError`; the spec's error
  taxonomy names (`UnknownStrategyError`, ...) are used for the `KeyError`s /
  `ValueError`s the code and its collaborators actually raise.
* Quantities that the code computes with `np.sqrt` / `np.exp` (kernel
  weights, cosine distances) are embedded over `ℝ`.
-/

namespace OurLime

/-- Python exceptions raised by the embedded code, named after the spec's
error taxonomy where it gives a name (`KeyError` in `SegmentationMethod` /
`KernelMethod` is `unknownStrategy` / `unknownKernel`; the sklearn
`ValueError` on an empty regression design matrix is `insufficientSamples`;
the sklearn `ValueError` from `pairwise_distances` input validation — zero
rows or zero features — is `valueError`). -/
inductive PyError where
  | typeError
  | indexError
  | unknownStrategy
  | unknownKernel
  | insufficientSamples
  | valueError
  deriving DecidableEq, Repr

/-- `ImageObject` from the source: the caller's original image plus the two
lazily-populated fields `masked_image` (the baseline image) and
`superpixels` (the segmentation grid).  The derived `shape` field is the
list length and is not represented separately. -/
structure ImageObject where
  original_image : List ℚ
  masked_image : Option (List ℚ)
  superpixels : Option (List ℕ)
  deriving DecidableEq, Repr

/-- Channel-wise mean of the original image over the super-pixel with
identifier `g`: `np.mean(img[superpixels == x], axis=0)` in
`Explainer.mask_image`. -/
def superpixel_mean (img : List ℚ) (grid : List ℕ) (g : ℕ) : ℚ :=
  let vals := (img.zip grid).filterMap (fun p => if p.2 = g then some p.1 else none)
  vals.sum / (vals.length : ℚ)

/-- The baseline ("fudged") image built by `Explainer.mask_image`:
with `mask_value = None` every pixel becomes the mean of its own
super-pixel (the loop over `superpixel_ids` writes each selected position
to the mean of its class, and the ids partition the positions); otherwise
every pixel is set to `mask_value` (`masked_img[:] = mask_value`). -/
def compute_baseline (img : List ℚ) (grid : List ℕ) (mask_value : Option ℚ) : List ℚ :=
  match mask_value with
  | some v => img.map (fun _ => v)
  | none => (img.zip grid).map (fun p => superpixel_mean img grid p.2)

/-- `Explainer.mask_image`: copies the original image, fills it according to
the masking policy and stores it in `image.masked_image`.  The source reads
`image.superpixels` unconditionally (it is `None` only outside the explain
flow); the embedding defaults a missing grid to `[]`. -/
def mask_image (image : ImageObject) (mask_value : Option ℚ) : ImageObject :=
  { image with
    masked_image :=
      some (compute_baseline image.original_image (image.superpixels.getD []) mask_value) }

/-- The per-sample materialization loop inside `Explainer.sample_superpixels`:
starting from a copy of the original image, the positions whose super-pixel
identifier is a *turned-on* sample index (`sample == 1`) are overwritten with
the baseline image (`sample_masked_image[mask] = image.masked_image[mask]`);
all other positions keep the original pixels.  A grid identifier outside
`[0, sample.length)` is never matched by the loop over
`np.where(sample == 1)[0]` and therefore keeps the original pixel. -/
def materialize_sample (orig baseline : List ℚ) (grid : List ℕ) (sample : List Bool) :
    List ℚ :=
  List.zipWith (fun (ob : ℚ × ℚ) (g : ℕ) => if sample.getD g false then ob.2 else ob.1)
    (orig.zip baseline) grid

/-- `Explainer.sample_superpixels` with the random draws passed explicitly:
returns the binary sample matrix together with the materialized perturbed
images. -/
def sample_superpixels (image : ImageObject) (draws : List (List Bool)) :
    List (List Bool) × List (List ℚ) :=
  (draws, draws.map (fun s =>
    materialize_sample image.original_image (image.masked_image.getD [])
      (image.superpixels.getD []) s))

/-- The pytorch train/eval flag of the injected classifier
(`self.classifier.eval()` in `Explainer.map_blaxbox_io`). -/
inductive ClsMode where
  | train
  | eval
  deriving DecidableEq, Repr

/-- The injected black-box classifier: its current parameter-update mode and
its scoring function.  The preprocessing transform and the
`F.softmax(self.classifier(x), dim=1)` post-processing are opaque
collaborators folded into `score`, which maps an image directly to its
per-class probability vector (the claims only rank / regress on that
vector). -/
structure Classifier where
  mode : ClsMode
  score : List ℚ → List ℚ

/-- `Explainer.map_blaxbox_io`: puts the classifier in eval mode
(`self.classifier.eval()`), scores each image under `torch.no_grad()`, and
returns the probability rows.  The mode set by `.eval()` persists in the
returned classifier state; nothing in the source restores the prior mode. -/
def map_blaxbox (c : Classifier) (sampled_images : List (List ℚ)) :
    Classifier × List (List ℚ) :=
  ({ c with mode := ClsMode.eval }, sampled_images.map c.score)

/-- The strategy argument of `SegmentationMethod.__init__`: a built-in
algorithm name or a custom segmentation function. -/
inductive SegSpec where
  | name (s : String)
  | func (f : List ℚ → List ℕ)

/-- `SegmentationMethod.__init__` with the three skimage built-ins passed as
parameters (they are external collaborators): a recognized name binds the
corresponding built-in, any other string raises
`KeyError` (= `UnknownStrategyError`), and a non-string is used as the
segmentation function itself. -/
def segmentation_init (quickshift felzenszwalb slic : List ℚ → List ℕ) :
    SegSpec → Except PyError (List ℚ → List ℕ)
  | .name s =>
      if s = "quickshift" then .ok quickshift
      else if s = "felzenszwalb" then .ok felzenszwalb
      else if s = "slic" then .ok slic
      else .error .unknownStrategy
  | .func f => .ok f

/-- The kernel bound by `KernelMethod.__init__`: the built-in exponential
lambda or a custom function. -/
inductive KernelFn where
  | exponential
  | custom (f : List ℝ → List ℝ)

/-- A constructed `KernelMethod`: the resolved kernel plus the captured
`method_args` (of which only `kernel_width` matters to the built-in). -/
structure KernelState where
  fn : KernelFn
  kernel_width : Option ℝ

/-- The strategy argument of `KernelMethod.__init__`. -/
inductive KernSpec where
  | name (s : String)
  | func (f : List ℝ → List ℝ)

/-- `KernelMethod.__init__`: the name "exponential" binds the built-in
lambda, any other string raises `KeyError` (= `UnknownKernelError`), and a
non-string is used as the kernel function itself.  `method_args` are
captured unvalidated. -/
def kernel_init (method : KernSpec) (kernel_width : Option ℝ) :
    Except PyError KernelState :=
  match method with
  | .name s =>
      if s = "exponential" then .ok ⟨.exponential, kernel_width⟩
      else .error .unknownKernel
  | .func f => .ok ⟨.custom f, kernel_width⟩

/-- The built-in exponential kernel of `KernelMethod.__init__`:
`np.sqrt(np.exp(-(distances ** 2) / kernel_width ** 2))`, pointwise. -/
noncomputable def exponential_kernel (kernel_width d : ℝ) : ℝ :=
  Real.sqrt (Real.exp (-(d ^ 2) / kernel_width ^ 2))

/-- `KernelMethod.__call__`: applies the resolved kernel to the distances
with the captured `method_args`.  Calling the built-in exponential lambda
without a captured `kernel_width` is the Python `TypeError` for a missing
required argument. -/
noncomputable def kernel_call (st : KernelState) (distances : List ℝ) :
    Except PyError (List ℝ) :=
  match st.fn with
  | .exponential =>
      match st.kernel_width with
      | some w => .ok (distances.map (exponential_kernel w))
      | none => .error .typeError
  | .custom f => .ok (f distances)

/-- A binary mask as the float row sklearn sees. -/
def maskVec (m : List Bool) : List ℝ :=
  m.map (fun b => if b then (1 : ℝ) else 0)

/-- Euclidean dot product of two rows. -/
def dotR (x y : List ℝ) : ℝ :=
  (List.zipWith (· * ·) x y).sum

/-- Euclidean norm of a row. -/
noncomputable def l2norm (x : List ℝ) : ℝ :=
  Real.sqrt ((x.map (fun a => a * a)).sum)

/-- sklearn's cosine distance (`pairwise_distances(..., metric="cosine")`):
`1 - <x,y> / (‖x‖ ‖y‖)`, where sklearn's row normalization replaces a zero
norm by `1` instead of dividing by zero, so a zero row gets similarity `0`
and distance `1`. -/
noncomputable def cosine_distance (x y : List ℝ) : ℝ :=
  let nx := if l2norm x = 0 then 1 else l2norm x
  let ny := if l2norm y = 0 then 1 else l2norm y
  1 - dotR x y / (nx * ny)

/-- `Explainer.get_distances`: cosine distance of every sampled mask row to
the all-ones row `np.ones(superpixel_samples.shape[1])` (the width of the
sample matrix, i.e. the length of its rows).  sklearn's
`pairwise_distances` validates its inputs (`check_array` inside
`check_pairwise_arrays`) before computing: a sample matrix with zero rows
(`num_samples = 0`, shape `(0, n)`) raises
`ValueError: Found array with 0 sample(s)`, and one with zero-length rows
(shape `(N, 0)`, and likewise the `(1, 0)` reference) raises the
zero-feature `ValueError`; only validated batches reach the cosine
computation. -/
noncomputable def get_distances (superpixel_samples : List (List Bool)) :
    Except PyError (List ℝ) :=
  match superpixel_samples with
  | [] => .error .valueError
  | m0 :: rest =>
      if m0.length = 0 then .error .valueError
      else .ok ((m0 :: rest).map
        (fun m => cosine_distance (maskVec m) (List.replicate m0.length (1 : ℝ))))

/-- Entry `i` of the probability row `v`, as numpy indexing reads it
(rows are rectangular, so indices in range; out-of-range defaults to `0`). -/
def entry (v : List ℚ) (i : ℕ) : ℚ :=
  v.getD i 0

/-- The linear order `np.argsort` sorts indices by: value ascending, ties
by ascending index (numpy's stable tie behavior). -/
abbrev ascRel (v : List ℚ) (i j : ℕ) : Prop :=
  entry v i < entry v j ∨ (entry v i = entry v j ∧ i ≤ j)

/-- The dual linear order: value descending, ties by descending index. -/
abbrev descRel (v : List ℚ) (i j : ℕ) : Prop :=
  entry v j < entry v i ∨ (entry v i = entry v j ∧ j ≤ i)

/-- The order the claim describes: value descending, ties by ascending
index. -/
abbrev claimRel (v : List ℚ) (i j : ℕ) : Prop :=
  entry v j < entry v i ∨ (entry v i = entry v j ∧ i ≤ j)

/-- `np.argsort(v)`: the indices of `v` sorted by ascending value.  numpy
resolves ties stably here (its introsort insertion-sorts short arrays, and
ties then keep ascending index order), so the result is the unique
permutation of `range v.length` sorted by the linear order
(value ascending, index ascending). -/
def argsortAsc (v : List ℚ) : List ℕ :=
  (List.range v.length).insertionSort (ascRel v)

/-- The Python slice `a[-k:]`: the last `k` elements, except that `k = 0`
yields the whole list (`a[-0:]` is `a[0:]`). -/
def lastSlice (l : List ℕ) (k : ℕ) : List ℕ :=
  if k = 0 then l else l.drop (l.length - k)

/-- Lines 243–244 of `Explainer.explain_image`:
`np.flip(np.argsort(original_labels[0])[-top_labels:])` — the selected
class identifiers when `top_labels` is set. -/
def selectLabels (v : List ℚ) (k : ℕ) : List ℕ :=
  (lastSlice (argsortAsc v) k).reverse

/-- The selection the claim describes, written from the claim's words: the
`k` highest-probability classes, ordered descending by probability with
ties broken by **ascending** class index. -/
def claimTopLabels (v : List ℚ) (k : ℕ) : List ℕ :=
  ((List.range v.length).insertionSort (claimRel v)).take k

/-- The selection the code actually performs, written from the amended
claim's words: the `k` highest-probability classes, ordered descending by
probability with ties broken by **descending** class index. -/
def specTopLabels (v : List ℚ) (k : ℕ) : List ℕ :=
  ((List.range v.length).insertionSort (descRel v)).take k

/-- The fitted surrogate model.  The regressor is the external sklearn
`Ridge` collaborator; modelled from the spec: the fitted model is the
weighted linear least-squares fit determined by its training data, so it is
abstracted as the record of `(X, y, sample_weight)` handed to `fit`. -/
structure SurrogateModel where
  X : List (List Bool)
  y : List (List ℚ)
  sample_weight : List ℝ

/-- The weighted-fit contract a regressor exposes
(`model.fit(samples, labels, sample_weight=weights)`). -/
def Regressor : Type :=
  List (List Bool) → List (List ℚ) → List ℝ → Except PyError SurrogateModel

/-- Modelled from the spec: the default sklearn `Ridge()` regressor is an
external collaborator; its input validation raises on an empty design
matrix (`ValueError: Found array with 0 sample(s)` — the spec's
`InsufficientSamplesError`), and with at least one sample the L2-regularized
weighted fit always succeeds (ridge handles the singular case). -/
def ridge_fit : Regressor := fun X y w =>
  if X.length = 0 then .error .insufficientSamples else .ok ⟨X, y, w⟩

/-- `Explainer.fit_LLR`: fits the (default: ridge) regressor to the sample
matrix and the classifier outputs with the kernel weights as sample
weights. -/
def fit_LLR (samples : List (List Bool)) (weights : List ℝ) (labels : List (List ℚ))
    (regressor : Option Regressor) : Except PyError SurrogateModel :=
  (regressor.getD ridge_fit) samples labels weights

/-- `Explainer.weigh_samples`: applies the injected kernel method to the
distances. -/
noncomputable def weigh_samples (kernel_method : KernelState) (distances : List ℝ) :
    Except PyError (List ℝ) :=
  kernel_call kernel_method distances

/-- What `Explainer.explain_image` produces and leaves behind: the (possibly
lazily updated) image object, the classifier with its post-call mode, the
selected class identifiers and the fitted surrogate model. -/
structure ExplainResult where
  image : ImageObject
  classifier : Classifier
  labels : List ℕ
  model : SurrogateModel

/-- `Explainer.explain_image`, faithful to the source's control flow, with
the Explainer's injected collaborators (`classifier`, `kernel_method`) and
the random draws as explicit arguments:

* `image.superpixels is None` leads to
  `self.segment_image(image, num_samples)` (line 229), which passes two
  arguments to the one-argument method `segment_image(self, image)` —
  Python raises `TypeError` there, before any segmentation or sampling.
* `image.masked_image is None` triggers `mask_image`; otherwise the cached
  baseline is reused *without checking which `mask_value` built it* (the
  source comment: `# What if mask_value changes?`).
* sampling, then cosine distances (whose sklearn input validation raises
  `ValueError` on an empty or zero-width sample matrix), then kernel
  weights and black-box scoring.
* `top_labels = None` selects `np.arange(sample_labels.shape[1])`
  (`shape[1]` of an empty sample matrix is an `IndexError`); otherwise the
  unperturbed image is scored and
  `np.flip(np.argsort(original_labels[0])[-top_labels:])` is selected.
* `fit_LLR` fits one (multi-output) regressor on **all** label columns;
  the selected `labels` do not restrict the fit. -/
noncomputable def explain_image (classifier : Classifier) (kernel_method : KernelState)
    (image : ImageObject) (draws : List (List Bool)) (top_labels : Option ℕ)
    (mask_value : Option ℚ) (regressor : Option Regressor) :
    Except PyError ExplainResult :=
  if image.superpixels = none then .error PyError.typeError
  else
    let image1 := if image.masked_image = none then mask_image image mask_value else image
    let sampled := sample_superpixels image1 draws
    match get_distances sampled.1 with
    | .error e => .error e
    | .ok distances =>
    match weigh_samples kernel_method distances with
    | .error e => .error e
    | .ok sample_weights =>
      let scored := map_blaxbox classifier sampled.2
      match top_labels with
      | none =>
        match scored.2 with
        | [] => .error PyError.indexError
        | r :: _ =>
          match fit_LLR sampled.1 sample_weights scored.2 regressor with
          | .error e => .error e
          | .ok model => .ok ⟨image1, scored.1, List.range r.length, model⟩
      | some k =>
        let ref := map_blaxbox scored.1 [image1.original_image]
        match fit_LLR sampled.1 sample_weights scored.2 regressor with
        | .error e => .error e
        | .ok model => .ok ⟨image1, ref.1, selectLabels (ref.2.headD []) k, model⟩

lemma ascRel_total (v : List ℚ) : ∀ i j, ascRel v i j ∨ ascRel v j i := by
  intro i j
  rcases lt_trichotomy (entry v i) (entry v j) with h | h | h
  · exact Or.inl (Or.inl h)
  · rcases Nat.le_total i j with hij | hij
    · exact Or.inl (Or.inr ⟨h, hij⟩)
    · exact Or.inr (Or.inr ⟨h.symm, hij⟩)
  · exact Or.inr (Or.inl h)

lemma ascRel_trans (v : List ℚ) : ∀ i j k, ascRel v i j → ascRel v j k → ascRel v i k := by
  intro i j k hij hjk
  rcases hij with h1 | ⟨e1, l1⟩
  · rcases hjk with h2 | ⟨e2, _⟩
    · exact Or.inl (h1.trans h2)
    · exact Or.inl (e2 ▸ h1)
  · rcases hjk with h2 | ⟨e2, l2⟩
    · exact Or.inl (e1 ▸ h2)
    · exact Or.inr ⟨e1.trans e2, l1.trans l2⟩

lemma descRel_of_flip_ascRel (v : List ℚ) {i j : ℕ} (h : ascRel v j i) : descRel v i j := by
  rcases h with h | ⟨e, l⟩
  · exact Or.inl h
  · exact Or.inr ⟨e.symm, l⟩

lemma descRel_total (v : List ℚ) : ∀ i j, descRel v i j ∨ descRel v j i := by
  intro i j
  rcases ascRel_total v j i with h | h
  · exact Or.inl (descRel_of_flip_ascRel v h)
  · exact Or.inr (descRel_of_flip_ascRel v h)

lemma descRel_trans (v : List ℚ) : ∀ i j k, descRel v i j → descRel v j k → descRel v i k := by
  intro i j k hij hjk
  rcases hij with h1 | ⟨e1, l1⟩
  · rcases hjk with h2 | ⟨e2, _⟩
    · exact Or.inl (h2.trans h1)
    · exact Or.inl (e2 ▸ h1)
  · rcases hjk with h2 | ⟨e2, l2⟩
    · exact Or.inl (h2.trans_eq e1.symm)
    · exact Or.inr ⟨e1.trans e2, l2.trans l1⟩

lemma descRel_antisymm (v : List ℚ) : ∀ i j, descRel v i j → descRel v j i → i = j := by
  intro i j hij hji
  rcases hij with h1 | ⟨e1, l1⟩
  · rcases hji with h2 | ⟨e2, _⟩
    · exact absurd h2 (lt_asymm h1)
    · exact absurd h1 (e2 ▸ lt_irrefl _)
  · rcases hji with h2 | ⟨e2, l2⟩
    · exact absurd h2 (e1 ▸ lt_irrefl _)
    · exact Nat.le_antisymm l2 l1

/-- Flipping the stable ascending argsort gives the descending order with
ties broken by descending index. -/
lemma reverse_argsortAsc (v : List ℚ) :
    (argsortAsc v).reverse = (List.range v.length).insertionSort (descRel v) := by
  haveI : IsTotal ℕ (descRel v) := ⟨descRel_total v⟩
  haveI : IsTrans ℕ (descRel v) := ⟨descRel_trans v⟩
  haveI : IsAntisymm ℕ (descRel v) := ⟨descRel_antisymm v⟩
  haveI : IsTotal ℕ (ascRel v) := ⟨ascRel_total v⟩
  haveI : IsTrans ℕ (ascRel v) := ⟨ascRel_trans v⟩
  unfold argsortAsc
  apply List.eq_of_perm_of_sorted (r := descRel v)
  · exact ((List.reverse_perm _).trans (List.perm_insertionSort _ _)).trans
      (List.perm_insertionSort (descRel v) (List.range v.length)).symm
  · rw [List.Sorted, List.pairwise_reverse]
    exact (List.sorted_insertionSort (ascRel v) _).imp (descRel_of_flip_ascRel v)
  · exact List.sorted_insertionSort _ _

/-- For `top_labels = k ≥ 1`, the code's
`np.flip(np.argsort(v)[-k:])` is the take-`k` of the descending order with
ties broken by descending index. -/
lemma selectLabels_eq_specTopLabels (v : List ℚ) (k : ℕ) (hk : 1 ≤ k) :
    selectLabels v k = specTopLabels v k := by
  unfold selectLabels specTopLabels lastSlice
  rw [if_neg (by omega), ← reverse_argsortAsc, ← List.take_reverse]

end OurLime
namespace OurLime

lemma explain_image_ok_image {classifier : Classifier} {kernel_method : KernelState}
    {image : ImageObject} {draws : List (List Bool)} {top_labels : Option ℕ}
    {mask_value : Option ℚ} {regressor : Option Regressor} {r : ExplainResult}
    (h : explain_image classifier kernel_method image draws top_labels mask_value regressor
      = .ok r) :
    r.image = if image.masked_image = none then mask_image image mask_value else image := by
  unfold explain_image at h
  by_cases hs : image.superpixels = none
  · rw [if_pos hs] at h
    exact absurd h (by simp)
  · rw [if_neg hs] at h
    simp only [] at h
    split at h
    · exact absurd h (by simp)
    · split at h
      · exact absurd h (by simp)
      · split at h
        · split at h
          · exact absurd h (by simp)
          · split at h
            · exact absurd h (by simp)
            · rw [Except.ok.injEq] at h
              rw [← h]
        · split at h
          · exact absurd h (by simp)
          · rw [Except.ok.injEq] at h
            rw [← h]

/-- **C1** (code bug).  The claim says materializing a perturbation mask
keeps bit = 1 super-pixels as in the original image and replaces bit = 0
super-pixels with baseline pixels, so the all-ones mask reproduces the
original and the all-zeros mask the baseline.  The code does the opposite:
evaluated on a one-super-pixel image with original pixel `10` and baseline
pixel `0`, the all-ones mask materializes to the baseline `[0]` and the
all-zeros mask to the original `[10]`; on two super-pixels the mask `[1,0]`
replaces super-pixel 0 (its bit is 1) and keeps super-pixel 1. -/
theorem C1_materialize_inverted :
    materialize_sample [(10 : ℚ)] [(0 : ℚ)] [0] [true] = [0] ∧
    materialize_sample [(10 : ℚ)] [(0 : ℚ)] [0] [false] = [10] ∧
    materialize_sample [(10 : ℚ), 20] [(0 : ℚ), 0] [0, 1] [true, false] = [0, 20] ∧
    (0 : ℚ) ≠ 10 := by
  refine ⟨rfl, rfl, rfl, by norm_num⟩

/-- **C2**: calling `explain_image` on an image whose `superpixels` field is
unset raises `TypeError` (the two-argument call to the one-argument
`segment_image`) before any sampling occurs, whatever the other
arguments. -/
theorem C2_unsegmented_raises (classifier : Classifier) (kernel_method : KernelState)
    (image : ImageObject) (draws : List (List Bool)) (top_labels : Option ℕ)
    (mask_value : Option ℚ) (regressor : Option Regressor)
    (h : image.superpixels = none) :
    explain_image classifier kernel_method image draws top_labels mask_value regressor
      = .error PyError.typeError := by
  unfold explain_image
  rw [if_pos h]

/-- Witness for C2 at a concrete not-yet-segmented image. -/
theorem C2_unsegmented_raises_witness :
    (ImageObject.mk [1] none none).superpixels = none ∧
    explain_image ⟨ClsMode.train, fun _ => [1]⟩ ⟨KernelFn.exponential, some 1⟩
      ⟨[1], none, none⟩ [[true]] none none none = .error PyError.typeError :=
  ⟨rfl, C2_unsegmented_raises _ _ _ _ _ _ _ rfl⟩

/-- **C9** (corrected).  Claimed: scoring restores the classifier's
train/eval mode on every exit path.  Counterexample: a classifier in
training mode before `map_blaxbox_io` is in eval mode afterwards. -/
theorem C9_mode_not_restored_counterexample :
    (map_blaxbox ⟨ClsMode.train, fun _ => [1]⟩ [[1]]).1.mode = ClsMode.eval ∧
    ClsMode.eval ≠ ClsMode.train :=
  ⟨rfl, by decide⟩

/-- **C9** (amended): `map_blaxbox_io` always leaves the classifier in eval
mode (`self.classifier.eval()` is never undone), so the prior mode is
preserved exactly when it already was eval; the scoring function itself is
untouched. -/
theorem C9_always_eval_mode (c : Classifier) (imgs : List (List ℚ)) :
    (map_blaxbox c imgs).1.mode = ClsMode.eval ∧
    ((map_blaxbox c imgs).1.mode = c.mode ↔ c.mode = ClsMode.eval) ∧
    (map_blaxbox c imgs).1.score = c.score := by
  refine ⟨rfl, ?_, rfl⟩
  cases h : c.mode <;> simp [map_blaxbox, h]

/-- **C10**: neither the lazy masking step nor a (successful or failed)
`explain_image` call changes the caller's original image pixels: the image
object coming out of the pipeline carries `original_image` unchanged, and
the sampling step returns fresh perturbed lists while leaving the image
object untouched. -/
theorem C10_original_image_preserved :
    (∀ (image : ImageObject) (mask_value : Option ℚ),
      (mask_image image mask_value).original_image = image.original_image) ∧
    ∀ (classifier : Classifier) (kernel_method : KernelState) (image : ImageObject)
      (draws : List (List Bool)) (top_labels : Option ℕ) (mask_value : Option ℚ)
      (regressor : Option Regressor),
      (explain_image classifier kernel_method image draws top_labels mask_value
          regressor).map (fun r => r.image.original_image)
        = (explain_image classifier kernel_method image draws top_labels mask_value
          regressor).map (fun _ => image.original_image) := by
  refine ⟨fun image mask_value => rfl, ?_⟩
  intro classifier kernel_method image draws top_labels mask_value regressor
  cases hE : explain_image classifier kernel_method image draws top_labels mask_value
      regressor with
  | error e => rfl
  | ok r =>
      have := explain_image_ok_image hE
      simp only [Except.map]
      rw [this]
      by_cases hm : image.masked_image = none
      · rw [if_pos hm]
        rfl
      · rw [if_neg hm]

end OurLime
namespace OurLime

/-- **C4**: a `KernelMethod` constructed from the "exponential" name with a
nonzero `kernel_width` weighs distances elementwise by
`sqrt(exp(-d^2 / kernel_width^2))`; it maps the zero distance to weight `1`
and is monotonically non-increasing on `0 ≤ d1 ≤ d2`. -/
theorem C4_exponential_kernel (w : ℝ) (hw : w ≠ 0) :
    kernel_call ⟨KernelFn.exponential, some w⟩ [0] = .ok [1] ∧
    (∀ ds : List ℝ, kernel_call ⟨KernelFn.exponential, some w⟩ ds
        = .ok (ds.map (exponential_kernel w))) ∧
    ∀ d1 d2 : ℝ, 0 ≤ d1 → d1 ≤ d2 →
      exponential_kernel w d2 ≤ exponential_kernel w d1 := by
  refine ⟨?_, fun ds => rfl, ?_⟩
  · show Except.ok [exponential_kernel w 0] = Except.ok [1]
    rw [exponential_kernel]
    norm_num
  · intro d1 d2 h1 h12
    unfold exponential_kernel
    have hw2 : (0 : ℝ) < w ^ 2 := by positivity
    apply Real.sqrt_le_sqrt
    apply (Real.exp_le_exp).mpr
    have hsq : d1 ^ 2 ≤ d2 ^ 2 := by nlinarith
    have hneg : -d2 ^ 2 ≤ -d1 ^ 2 := neg_le_neg hsq
    gcongr

end OurLime
namespace OurLime

/-- Witness for C4 at `kernel_width = 1`. -/
theorem C4_exponential_kernel_witness :
    (1 : ℝ) ≠ 0 ∧
    (kernel_call ⟨KernelFn.exponential, some 1⟩ [0] = .ok [1] ∧
      (∀ ds : List ℝ, kernel_call ⟨KernelFn.exponential, some 1⟩ ds
          = .ok (ds.map (exponential_kernel 1))) ∧
      ∀ d1 d2 : ℝ, 0 ≤ d1 → d1 ≤ d2 →
        exponential_kernel 1 d2 ≤ exponential_kernel 1 d1) :=
  ⟨one_ne_zero, C4_exponential_kernel 1 one_ne_zero⟩

/-- **C5**: both pluggable-method constructors fail exactly on unrecognized
string names — `SegmentationMethod` with `UnknownStrategyError`,
`KernelMethod` with `UnknownKernelError` — while recognized names and
injected callables construct successfully; and a constructed kernel can
fail at call time only with the missing-argument `TypeError`, never with an
unknown-method error. -/
theorem C5_construction_errors (qs fz sl : List ℚ → List ℕ) :
    (∀ s : String, s ≠ "quickshift" → s ≠ "felzenszwalb" → s ≠ "slic" →
      segmentation_init qs fz sl (.name s) = .error PyError.unknownStrategy) ∧
    (∀ s : String, s ≠ "exponential" → ∀ kw : Option ℝ,
      kernel_init (.name s) kw = .error PyError.unknownKernel) ∧
    (segmentation_init qs fz sl (.name "quickshift") = .ok qs ∧
      segmentation_init qs fz sl (.name "felzenszwalb") = .ok fz ∧
      segmentation_init qs fz sl (.name "slic") = .ok sl) ∧
    (∀ f : List ℚ → List ℕ, segmentation_init qs fz sl (.func f) = .ok f) ∧
    (∀ kw : Option ℝ, kernel_init (.name "exponential") kw = .ok ⟨KernelFn.exponential, kw⟩) ∧
    (∀ (f : List ℝ → List ℝ) (kw : Option ℝ),
      kernel_init (.func f) kw = .ok ⟨KernelFn.custom f, kw⟩) ∧
    ∀ (st : KernelState) (ds : List ℝ) (e : PyError),
      kernel_call st ds = .error e → e = PyError.typeError := by
  refine ⟨?_, ?_, ⟨rfl, rfl, rfl⟩, fun f => rfl, fun kw => rfl, fun f kw => rfl, ?_⟩
  · intro s h1 h2 h3
    simp [segmentation_init, h1, h2, h3]
  · intro s h1 kw
    simp [kernel_init, h1]
  · intro st ds e h
    rcases st with ⟨fn, kw⟩
    cases fn with
    | exponential =>
        cases kw with
        | none =>
            simp [kernel_call] at h
            exact h.symm
        | some w => simp [kernel_call] at h
    | custom f => simp [kernel_call] at h

/-- Witness for C5 at the unrecognized name "bogus" and concrete
collaborators. -/
theorem C5_construction_errors_witness :
    segmentation_init (fun _ => []) (fun _ => []) (fun _ => []) (.name "bogus")
        = .error PyError.unknownStrategy ∧
    kernel_init (.name "bogus") none = .error PyError.unknownKernel ∧
    kernel_init (.name "exponential") (some 1) = .ok ⟨KernelFn.exponential, some 1⟩ ∧
    PyError.typeError = PyError.typeError :=
  ⟨(C5_construction_errors _ _ _).1 "bogus" (by decide) (by decide) (by decide),
    (C5_construction_errors (fun _ => []) (fun _ => []) (fun _ => [])).2.1 "bogus"
      (by decide) none,
    (C5_construction_errors (fun _ => []) (fun _ => []) (fun _ => [])).2.2.2.2.1 (some 1),
    ((C5_construction_errors (fun _ => []) (fun _ => []) (fun _ => [])).2.2.2.2.2.2
      ⟨KernelFn.exponential, none⟩ [] PyError.typeError rfl)⟩

/-- **C6**: the surrogate fit with the default ridge regressor raises
`InsufficientSamplesError` on an empty sample batch (`N = 0`) instead of
returning a degenerate model, and succeeds without raising on a single
sample (`N = 1`). -/
theorem C6_fit_sample_validation :
    (∀ (weights : List ℝ) (labels : List (List ℚ)),
      fit_LLR [] weights labels none = .error PyError.insufficientSamples) ∧
    ∀ (samples : List (List Bool)) (weights : List ℝ) (labels : List (List ℚ)),
      samples.length = 1 → ∃ m, fit_LLR samples weights labels none = .ok m := by
  refine ⟨fun weights labels => rfl, ?_⟩
  intro samples weights labels h
  refine ⟨⟨samples, labels, weights⟩, ?_⟩
  have hne : samples ≠ [] := by
    intro he
    rw [he] at h
    simp at h
  unfold fit_LLR ridge_fit
  simp [hne]

/-- Witness for C6 at a concrete one-sample fit. -/
theorem C6_fit_sample_validation_witness :
    fit_LLR [] [] [] none = .error PyError.insufficientSamples ∧
    ([[true]] : List (List Bool)).length = 1 ∧
    ∃ m, fit_LLR [[true]] [(1 : ℝ)] [[(1 : ℚ)]] none = .ok m :=
  ⟨C6_fit_sample_validation.1 [] [], rfl,
    C6_fit_sample_validation.2 [[true]] [(1 : ℝ)] [[(1 : ℚ)]] rfl⟩

end OurLime
namespace OurLime

lemma dotR_maskVec_allFalse {m : List Bool} (h : ∀ b ∈ m, b = false) (y : List ℝ) :
    dotR (maskVec m) y = 0 := by
  induction m generalizing y with
  | nil => cases y <;> simp [dotR, maskVec]
  | cons b m ih =>
      cases y with
      | nil => simp [dotR, maskVec]
      | cons a y =>
          have hb : b = false := h b (List.mem_cons_self b m)
          have hrest := ih (fun x hx => h x (List.mem_cons_of_mem b hx)) y
          simp only [maskVec, List.map_cons, dotR, List.zipWith_cons_cons, List.sum_cons] at *
          rw [hb]
          simp [hrest]

lemma l2norm_maskVec_pos {m : List Bool} (h : true ∈ m) : 0 < l2norm (maskVec m) := by
  apply Real.sqrt_pos.mpr
  have h1 : (1 : ℝ) ∈ (maskVec m).map (fun a => a * a) := by
    apply List.mem_map.mpr
    refine ⟨1, ?_, by norm_num⟩
    unfold maskVec
    exact List.mem_map.mpr ⟨true, h, by simp⟩
  have hnn : ∀ x ∈ (maskVec m).map (fun a => a * a), (0 : ℝ) ≤ x := by
    intro x hx
    rcases List.mem_map.mp hx with ⟨a, _, rfl⟩
    exact mul_self_nonneg a
  have := List.single_le_sum hnn 1 h1
  linarith

lemma l2norm_replicate_one_pos {n : ℕ} (hn : 0 < n) :
    0 < l2norm (List.replicate n (1 : ℝ)) := by
  apply Real.sqrt_pos.mpr
  have : (List.replicate n (1 : ℝ)).map (fun a => a * a) = List.replicate n (1 : ℝ) := by
    simp
  rw [this, List.sum_replicate]
  simp [hn]

/-- **C7** (corrected).  Counterexample to the claimed totality: on the
empty batch (`num_samples = 0`, a 0-row sample matrix) sklearn's
`pairwise_distances` input validation raises
`ValueError: Found array with 0 sample(s)` instead of computing distances,
so "computing distances never raises" fails at that batch. -/
theorem C7_empty_batch_counterexample :
    get_distances ([] : List (List Bool)) = .error PyError.valueError :=
  rfl

/-- **C7** (amended): on every *nonempty* batch of equal-length masks with
at least one super-pixel, the distance computation never raises: each
all-zeros mask (undefined cosine angle) gets the fallback maximal
distance `1` by sklearn's zero-norm guard, and every mask with at least one
bit set gets the genuine cosine distance
`1 - <mask, ones> / (‖mask‖ ‖ones‖)`.  (The empty batch raises sklearn's
zero-sample `ValueError`, as does a zero-super-pixel batch.) -/
theorem C7_distances_zero_fallback (samples : List (List Bool)) (n : ℕ) (hn : 0 < n)
    (hne : samples ≠ []) (hlen : ∀ m ∈ samples, m.length = n) :
    get_distances samples = .ok (samples.map (fun m =>
      if ∀ b ∈ m, b = false then 1
      else 1 - dotR (maskVec m) (List.replicate n 1)
        / (l2norm (maskVec m) * l2norm (List.replicate n (1 : ℝ))))) := by
  cases samples with
  | nil => exact absurd rfl hne
  | cons m0 rest =>
      have hhead : m0.length = n := hlen m0 (by simp)
      show (if m0.length = 0 then (Except.error PyError.valueError : Except PyError (List ℝ))
          else .ok ((m0 :: rest).map
            (fun m => cosine_distance (maskVec m) (List.replicate m0.length (1 : ℝ))))) = _
      rw [hhead, if_neg (by omega), Except.ok.injEq]
      apply List.map_congr_left
      intro m hm
      by_cases hz : ∀ b ∈ m, b = false
      · rw [if_pos hz]
        unfold cosine_distance
        rw [dotR_maskVec_allFalse hz]
        simp
      · rw [if_neg hz]
        have htrue : true ∈ m := by
          push_neg at hz
          rcases hz with ⟨b, hbm, hbne⟩
          cases b
          · exact absurd rfl hbne
          · exact hbm
        have h1 := l2norm_maskVec_pos htrue
        have h2 := l2norm_replicate_one_pos hn
        unfold cosine_distance
        rw [if_neg (ne_of_gt h1), if_neg (ne_of_gt h2)]

/-- Witness for C7 (amended) on the batch `[[false],[true]]` with one
super-pixel. -/
theorem C7_distances_zero_fallback_witness :
    (0 < 1 ∧ ([[false], [true]] : List (List Bool)) ≠ [] ∧
      ∀ m ∈ [[false], [true]], m.length = 1) ∧
    get_distances [[false], [true]] = .ok ([[false], [true]].map (fun m =>
      if ∀ b ∈ m, b = false then 1
      else 1 - dotR (maskVec m) (List.replicate 1 1)
        / (l2norm (maskVec m) * l2norm (List.replicate 1 (1 : ℝ))))) :=
  ⟨⟨by decide, by decide, by decide⟩,
    C7_distances_zero_fallback [[false], [true]] 1 (by decide) (by decide) (by decide)⟩

end OurLime
namespace OurLime

lemma explain_image_ok_labels {classifier : Classifier} {kernel_method : KernelState}
    {image : ImageObject} {draws : List (List Bool)} {k : ℕ}
    {mask_value : Option ℚ} {regressor : Option Regressor} {r : ExplainResult}
    (h : explain_image classifier kernel_method image draws (some k) mask_value regressor
      = .ok r) :
    r.labels = selectLabels (classifier.score image.original_image) k := by
  unfold explain_image at h
  by_cases hs : image.superpixels = none
  · rw [if_pos hs] at h
    exact absurd h (by simp)
  · rw [if_neg hs] at h
    simp only [] at h
    split at h
    · exact absurd h (by simp)
    · split at h
      · exact absurd h (by simp)
      · split at h
        · exact absurd h (by simp)
        · rw [Except.ok.injEq] at h
          rw [← h]
          have horig : (if image.masked_image = none then mask_image image mask_value
              else image).original_image = image.original_image := by
            by_cases hm : image.masked_image = none
            · rw [if_pos hm]
              rfl
            · rw [if_neg hm]
          simp [map_blaxbox, horig]

/-- **C3** (corrected).  Counterexample to the claimed tie-breaking: on the
reference probability vector `[1/2, 1/2]` with `top_k_labels = 1` the code
selects class `1` (the stable ascending argsort is flipped, so ties come
out by *descending* class index), while the claim's
descending-probability / ascending-index order selects class `0`. -/
theorem C3_tie_break_counterexample :
    selectLabels [(1 : ℚ) / 2, 1 / 2] 1 = [1] ∧
    claimTopLabels [(1 : ℚ) / 2, 1 / 2] 1 = [0] ∧
    ([1] : List ℕ) ≠ [0] := by
  refine ⟨?_, ?_, by decide⟩
  · norm_num [selectLabels, argsortAsc, lastSlice, ascRel, entry, List.insertionSort,
      List.orderedInsert]
  · norm_num [claimTopLabels, claimRel, entry, List.insertionSort, List.orderedInsert]

/-- **C3** (amended): with `top_k_labels = k ≥ 1` the selected classes are
exactly the `k` highest-probability classes of the reference
(unperturbed-image) probability vector, ordered descending by probability
with ties broken by *descending* class index; and inside `explain_image`
this selection is applied to the classifier's output on the original
image.  (The single multi-output surrogate fit covers all classes, the
selected ones included.) -/
theorem C3_top_k_selection (k : ℕ) (hk : 1 ≤ k) :
    (∀ v : List ℚ, selectLabels v k = specTopLabels v k) ∧
    ∀ (classifier : Classifier) (kernel_method : KernelState) (image : ImageObject)
      (draws : List (List Bool)) (mask_value : Option ℚ) (regressor : Option Regressor),
      (explain_image classifier kernel_method image draws (some k) mask_value
          regressor).map (fun r => r.labels)
        = (explain_image classifier kernel_method image draws (some k) mask_value
          regressor).map
          (fun _ => specTopLabels (classifier.score image.original_image) k) := by
  refine ⟨fun v => selectLabels_eq_specTopLabels v k hk, ?_⟩
  intro classifier kernel_method image draws mask_value regressor
  cases hE : explain_image classifier kernel_method image draws (some k) mask_value
      regressor with
  | error e => rfl
  | ok r =>
      simp only [Except.map]
      rw [explain_image_ok_labels hE,
        selectLabels_eq_specTopLabels (classifier.score image.original_image) k hk]

/-- Witness for C3 (amended) at `k = 1` and a concrete probability
vector. -/
theorem C3_top_k_selection_witness :
    1 ≤ 1 ∧ selectLabels [(1 : ℚ) / 2, 1 / 2] 1 = specTopLabels [(1 : ℚ) / 2, 1 / 2] 1 :=
  ⟨by decide, (C3_top_k_selection 1 (by decide)).1 [(1 : ℚ) / 2, 1 / 2]⟩

/-- **C8** (corrected).  Counterexample to the claimed invalidation: an
image carrying a cached baseline `[0]` (as built by a `mask_value = 0`
policy) is explained with `mask_value = 1`; the call succeeds and still
carries the stale baseline `[0]`, although the new policy would build
`[1]`. -/
theorem C8_no_invalidation_counterexample :
    (explain_image ⟨ClsMode.train, fun _ => [1]⟩ ⟨KernelFn.exponential, some 1⟩
        ⟨[(5 : ℚ)], some [0], some [0]⟩ [[true]] (some 1) (some 1) none).map
      (fun r => r.image.masked_image) = .ok (some [(0 : ℚ)]) ∧
    compute_baseline [(5 : ℚ)] [0] (some 1) = [1] ∧
    (some [(0 : ℚ)] : Option (List ℚ)) ≠ some [(1 : ℚ)] := by
  refine ⟨rfl, rfl, by decide⟩

/-- **C8** (amended): `explain_image` reuses a present segmentation grid
unchanged, and computes the baseline (under the current `mask_value`) only
when no baseline is cached; a cached baseline is reused *regardless of
`mask_value`* — the masking policy is never invalidated. -/
theorem C8_baseline_cache_never_invalidated (classifier : Classifier)
    (kernel_method : KernelState) (image : ImageObject) (draws : List (List Bool))
    (top_labels : Option ℕ) (mask_value : Option ℚ) (regressor : Option Regressor) :
    (explain_image classifier kernel_method image draws top_labels mask_value
        regressor).map (fun r => (r.image.superpixels, r.image.masked_image))
      = (explain_image classifier kernel_method image draws top_labels mask_value
        regressor).map (fun _ => (image.superpixels,
          if image.masked_image = none
          then some (compute_baseline image.original_image (image.superpixels.getD [])
            mask_value)
          else image.masked_image)) := by
  cases hE : explain_image classifier kernel_method image draws top_labels mask_value
      regressor with
  | error e => rfl
  | ok r =>
      have hr := explain_image_ok_image hE
      simp only [Except.map]
      rw [hr]
      by_cases hm : image.masked_image = none
      · rw [if_pos hm, if_pos hm]
        rfl
      · rw [if_neg hm, if_neg hm]

end OurLime
